import Mathlib

/-!
Verification of the chat application client-side orchestration layer.

The definitions below are a shallow embedding of the Python sources:
`app/dash_app.py` (the Dash UI controller: send_message, tick, session
merging), `app/services/agent_service.py` (AgentService), and `app/app.py`
(title generation).  Python dictionaries that hold messages, sessions and
poll-store entries are modelled as Lean structures and association lists;
Python string truthiness is modelled explicitly.  The in-memory task queue
module (`app/services/task_queue.py`) is not part of the shipped sources,
so its store operations are modelled from the specification text and are
marked as such in their doc comments.
-/

set_option maxRecDepth 4000

namespace ChatApp

/-- Role of a chat message, mirroring the user and assistant roles used in
`dash_app.py`. -/
inductive MsgRole where
  | user
  | assistant
  deriving DecidableEq, Repr

/-- Client-side chat message dictionary from `dash_app.py`.  Missing keys in
the Python dictionaries default to falsy values, which this structure
represents directly: `saved` and `saving` default to `false` and `error`
to `none`. -/
structure Message where
  id : String
  role : MsgRole
  content : String
  order : Int
  saved : Bool := false
  saving : Bool := false
  error : Option String := none
  deriving DecidableEq, Repr

/-- The chat-store payload of `dash_app.py`: currentChatId, messages and the
isLoading flag (absent key modelled as `false` / `none`). -/
structure ChatState where
  currentChatId : Option String
  messages : List Message
  isLoading : Bool := false
  deriving DecidableEq, Repr

/-- One entry of the sessions-store list in `dash_app.py`. -/
structure SessionItem where
  id : String
  title : Option String
  deriving DecidableEq, Repr

/-- One entry of the errors-store list appended by `tick` on a failed save. -/
structure ErrEntry where
  messageId : String
  stage : String
  error : String
  deriving DecidableEq, Repr

/-- Generation buffer as observed through `get_generation_buffer` and
`read_all`: the accumulated text, the completion flag and the optional
error, following spec section 3 and its use in `dash_app.py`. -/
structure GenBuffer where
  content : String
  isDone : Bool
  error : Option String
  deriving DecidableEq, Repr

/-- Save status record: ok flag plus optional error string, following spec
section 3 and its consumption in `dash_app.py`. -/
structure SaveStatus where
  ok : Bool
  error : Option String
  deriving DecidableEq, Repr

/-- Python truthiness of an optional string: None and the empty string are
falsy, every other string is truthy. -/
def optTruthy : Option String → Bool
  | none => false
  | some s => decide (s ≠ "")

/-- Python `max(xs, default=d)`: the maximum element when the list is
nonempty, otherwise the default. -/
def pyMaxDefault (xs : List Int) (d : Int) : Int :=
  match xs with
  | [] => d
  | x :: rest => rest.foldl max x

/-- Lookup in an association list with string keys, returning the value of
the first matching entry, as a Python dictionary read does. -/
def alookup {α : Type} (xs : List (String × α)) (k : String) : Option α :=
  match xs with
  | [] => none
  | (k', v) :: rest => if k' = k then some v else alookup rest k

/-- Removal of every entry with the given key, as a Python `dict.pop`. -/
def aerase {α : Type} (xs : List (String × α)) (k : String) : List (String × α) :=
  xs.filter (fun p => decide (p.1 ≠ k))

/-- Python dictionary insertion on an association list: if the key is
present the value is replaced in place, otherwise the pair is appended. -/
def dictInsert {α : Type} (d : List (String × α)) (k : String) (v : α) :
    List (String × α) :=
  if (alookup d k).isSome then
    d.map (fun p => if p.1 = k then (k, v) else p)
  else
    d ++ [(k, v)]

/-! ## send_message (dash_app.py, lines 403 to 464) -/

/-- Result of a successful `send_message` callback: the new chat-store
state, the message id whose save was submitted, the message id whose
generation was submitted, and the cleared input value. -/
structure SendResult where
  state : ChatState
  savedUserId : String
  genAssistantId : String
  clearedInput : String
  deriving DecidableEq, Repr

/-- The `send_message` callback of `dash_app.py`.  The two fresh message ids
produced by `create_message_id` are passed explicitly as `uid` and `aid`.
Returns `none` where the Python code returns `no_update` for all outputs
(empty text, missing chat state, or missing current chat id). -/
def send_message (text : String) (chatState : Option ChatState)
    (uid aid : String) : Option SendResult :=
  if text = "" then none
  else
    match chatState with
    | none => none
    | some cs =>
      if optTruthy cs.currentChatId = false then none
      else
        let messages := cs.messages
        let nextOrder := pyMaxDefault (messages.map Message.order) (-1) + 1
        let userMessage : Message :=
          { id := uid, role := .user, content := text, order := nextOrder,
            saved := false, saving := true, error := none }
        let assistantMessage : Message :=
          { id := aid, role := .assistant, content := "",
            order := nextOrder + 1, saved := false, saving := false,
            error := none }
        let messages' := messages ++ [userMessage, assistantMessage]
        some { state := { currentChatId := cs.currentChatId,
                          messages := messages', isLoading := false },
               savedUserId := uid, genAssistantId := aid,
               clearedInput := "" }

/-! ## Save status store (task queue) -/

/-- Modelled from the spec: the module `app/services/task_queue.py` is not
among the shipped sources, only its import and call sites are.  Per spec
section 3, the save-status store maps message ids to one-shot
SaveStatusRecord cells; the store is an association list with dictionary
semantics. -/
abbrev SaveStore : Type := List (String × SaveStatus)

/-- Modelled from the spec: completion of a `submit_save` task (spec
section 4.3).  On success the worker writes `ok = true`; when the work
function raises, it writes `ok = false` with the stringified exception.  A
second save attempt for the same id overwrites (spec section 3). -/
def complete_save (st : SaveStore) (msgId : String)
    (outcome : Except String Unit) : SaveStore :=
  dictInsert st msgId
    (match outcome with
     | .ok _ => { ok := true, error := none }
     | .error e => { ok := false, error := some e })

/-- Modelled from the spec: `pop_save_status` (spec section 3, lifecycle of
SaveStatusRecord) returns the stored status for the id, if any, and clears
the slot, so a status is consumed exactly once. -/
def pop_save_status (st : SaveStore) (msgId : String) :
    Option SaveStatus × SaveStore :=
  (alookup st msgId, aerase st msgId)

/-- Operations on the save-status store, used to state that a popped id
stays empty until a new save for it completes. -/
inductive SaveOp where
  | complete (msgId : String) (outcome : Except String Unit)
  | pop (msgId : String)

/-- Whether an operation is a save completion for the given id. -/
def completesId (msgId : String) : SaveOp → Bool
  | .complete i _ => i == msgId
  | .pop _ => false

/-- Sequential application of store operations. -/
def applySaveOps (st : SaveStore) : List SaveOp → SaveStore
  | [] => st
  | .complete i outcome :: rest => applySaveOps (complete_save st i outcome) rest
  | .pop i :: rest => applySaveOps (pop_save_status st i).2 rest

/-! ## AgentService (services/agent_service.py) -/

/-- Parsed JSON values, the shape of a Databricks serving response as
consumed by `_normalize_response_to_text`. -/
inductive JValue where
  | jnull
  | jbool (b : Bool)
  | jnum (n : Int)
  | jstr (s : String)
  | jarr (items : List JValue)
  | jobj (fields : List (String × JValue))

mutual

/-- Python `repr` of a parsed JSON value (dictionaries and lists print with
single-quoted strings).  String contents are reproduced verbatim; exotic
character escaping inside `repr` is not modelled. -/
def pyRepr : JValue → String
  | .jnull => "None"
  | .jbool true => "True"
  | .jbool false => "False"
  | .jnum n => toString n
  | .jstr s => "\x27" ++ s ++ "\x27"
  | .jarr items => "[" ++ pyReprList items ++ "]"
  | .jobj fields => "\x7b" ++ pyReprFields fields ++ "\x7d"

/-- Comma-joined `repr` of list items. -/
def pyReprList : List JValue → String
  | [] => ""
  | [x] => pyRepr x
  | x :: y :: rest => pyRepr x ++ ", " ++ pyReprList (y :: rest)

/-- Comma-joined `repr` of dictionary entries. -/
def pyReprFields : List (String × JValue) → String
  | [] => ""
  | [(k, v)] => "\x27" ++ k ++ "\x27: " ++ pyRepr v
  | (k, v) :: f :: rest => "\x27" ++ k ++ "\x27: " ++ pyRepr v ++ ", " ++ pyReprFields (f :: rest)

end

/-- Python `str` of a parsed JSON value: strings pass through unchanged,
everything else prints as its `repr`. -/
def pyStr : JValue → String
  | .jstr s => s
  | v => pyRepr v

/-- Minimal JSON string escaping for the `json.dumps` fallback: quote and
backslash; control-character escapes are not modelled. -/
def jsonEscape (s : String) : String :=
  s.foldl
    (fun acc c =>
      acc ++ (if c = '"' then "\\\"" else if c = '\\' then "\\\\" else String.singleton c))
    ""

mutual

/-- Python `json.dumps` with default separators, used as the normalization
fallback in `_normalize_response_to_text`. -/
def jsonDumps : JValue → String
  | .jnull => "null"
  | .jbool true => "true"
  | .jbool false => "false"
  | .jnum n => toString n
  | .jstr s => "\"" ++ jsonEscape s ++ "\""
  | .jarr items => "[" ++ jsonDumpsList items ++ "]"
  | .jobj fields => "\x7b" ++ jsonDumpsFields fields ++ "\x7d"

/-- Comma-joined dump of list items. -/
def jsonDumpsList : List JValue → String
  | [] => ""
  | [x] => jsonDumps x
  | x :: y :: rest => jsonDumps x ++ ", " ++ jsonDumpsList (y :: rest)

/-- Comma-joined dump of dictionary entries. -/
def jsonDumpsFields : List (String × JValue) → String
  | [] => ""
  | [(k, v)] => "\"" ++ jsonEscape k ++ "\": " ++ jsonDumps v
  | (k, v) :: f :: rest =>
    "\"" ++ jsonEscape k ++ "\": " ++ jsonDumps v ++ ", " ++ jsonDumpsFields (f :: rest)

end

/-- Extraction of the assistant message texts from a `messages` array, as in
`_normalize_response_to_text`: dictionary items whose role is assistant and
whose content is a nonblank string. -/
def assistantTexts (msgs : List JValue) : List String :=
  msgs.filterMap
    (fun m =>
      match m with
      | .jobj f =>
        match alookup f "role", alookup f "content" with
        | some (.jstr "assistant"), some (.jstr c) =>
          if c.trim ≠ "" then some c else none
        | _, _ => none
      | _ => none)

/-- The guarded extraction `str(choice0[tag message][tag content])` of
`_normalize_response_to_text`: any indexing failure is swallowed by the
surrounding try and yields nothing. -/
def choicesExtract (choice0 : JValue) : Option String :=
  match choice0 with
  | .jobj cf =>
    match alookup cf "message" with
    | some (.jobj mf) =>
      match alookup mf "content" with
      | some c => some (pyStr c)
      | none => none
    | _ => none
  | _ => none

/-- Probe of a list-item dictionary past the text check in
`_normalize_response_to_text`: the guarded choices extraction. -/
def collectItemChoices (f : List (String × JValue)) : Option String :=
  match alookup f "choices" with
  | some (.jarr (c0 :: _)) => choicesExtract c0
  | _ => none

/-- Probe of a list-item dictionary past the output_text check: the text
field, then choices. -/
def collectItemText (f : List (String × JValue)) : Option String :=
  match alookup f "text" with
  | some (.jstr s) =>
    if s.trim ≠ "" then some s else collectItemChoices f
  | _ => collectItemChoices f

/-- Probe of a list-item dictionary past the messages check: the
output_text field, then text, then choices. -/
def collectItemFields (f : List (String × JValue)) : Option String :=
  match alookup f "output_text" with
  | some (.jstr s) =>
    if s.trim ≠ "" then some s else collectItemText f
  | _ => collectItemText f

/-- Handling of one top-level list item in `_normalize_response_to_text`:
nonblank strings pass, dictionaries are probed for messages, output_text,
text and choices in that order; anything else contributes nothing. -/
def collectItem (item : JValue) : Option String :=
  match item with
  | .jstr s => if s.trim ≠ "" then some s else none
  | .jobj f =>
    match alookup f "messages" with
    | some (.jarr ms) =>
      let ats := assistantTexts ms
      if ats ≠ [] then some ("\n\n".intercalate ats)
      else collectItemFields f
    | _ => collectItemFields f
  | _ => none

/-- The `_normalize_response_to_text` method of AgentService: turns the
serving response into display text, falling back to `json.dumps`. -/
def normalize_response_to_text (response : JValue) : String :=
  match response with
  | .jstr s => s
  | .jobj fields =>
    match
      (match alookup fields "choices" with
       | some (.jarr (c0 :: _)) => choicesExtract c0
       | _ => none) with
    | some s => s
    | none =>
      match alookup fields "output_text" with
      | some (.jstr s) => s
      | _ =>
        match alookup fields "text" with
        | some (.jstr s) => s
        | _ =>
          match alookup fields "messages" with
          | some (.jarr (m0 :: ms)) =>
            let ats := assistantTexts (m0 :: ms)
            if ats ≠ [] then "\n\n".intercalate ats
            else jsonDumps response
          | _ => jsonDumps response
  | .jarr (i0 :: rest) =>
    let collected := (i0 :: rest).filterMap collectItem
    if collected ≠ [] then "\n\n".intercalate collected
    else jsonDumps response
  | _ => jsonDumps response

/-- Python `int` applied to a string, restricted to an optional sign and
decimal digits after whitespace stripping (digit-group underscores are not
modelled); `none` is the ValueError case. -/
def pyParseInt (s : String) : Option Int :=
  let t := s.trim
  let sign : Int := if t.startsWith "-" then -1 else 1
  let digits := if t.startsWith "-" ∨ t.startsWith "+" then t.drop 1 else t
  if digits = "" then none
  else if digits.all Char.isDigit then
    some (sign * Int.ofNat (digits.foldl (fun acc c => acc * 10 + (c.toNat - 48)) 0))
  else none

/-- The shared environment-limit parsing of agent_service.py: getenv with
default string 5, `int` with ValueError fallback 5, and a floor that maps
nonpositive values back to 5.  Used for CHAT_CONTEXT_LIMIT and
AGENT_CHAT_K. -/
def parseLimitWithDefault (raw : Option String) : Int :=
  let v := (pyParseInt (raw.getD "5")).getD 5
  if v ≤ 0 then 5 else v

/-- Chat message as passed to AgentService (role plus content of the
databricks ChatMessage). -/
structure AgentChatMessage where
  role : MsgRole
  content : String
  deriving DecidableEq, Repr

/-- Python list slice `xs[-n:]` for positive `n`. -/
def pyTakeLast {α : Type} (n : Int) (xs : List α) : List α :=
  xs.drop (xs.length - n.toNat)

/-- Environment and collaborator outcomes consumed by one call of
`generate_bot_response`: the AGENT_ENDPOINT, CHAT_CONTEXT_LIMIT and
AGENT_CHAT_K variables, and the outcome of the single serving-endpoint
invocation (error carries the stringified exception). -/
structure AgentEnv where
  agentEndpoint : Option String
  chatContextLimit : Option String
  agentChatK : Option String
  doCallResult : Except String JValue

/-- The `generate_bot_response` method of AgentService, lines 114 to 182 of
services/agent_service.py.  The one statement of its body that can raise
is the serving-endpoint invocation, whose outcome the environment
carries; the surrounding except clause turns that exception into the
returned error string. -/
def generate_bot_response (env : AgentEnv) (currentUser : String)
    (messages : List AgentChatMessage) : String :=
  if optTruthy env.agentEndpoint = false then
    "Error: AGENT_ENDPOINT environment variable not configured."
  else
    let maxContextMessages := parseLimitWithDefault env.chatContextLimit
    let _systemPrompt :=
      "You are a helpful assistant that can answer questions and help with tasks, you are also able to search the chat history for relevant information.\nIf the user asks a question that is not related to the chat history, you shouldn\x27t mention you couldn\x27t find anything related to the question."
    let limited :=
      match messages with
      | [] => []
      | _ => pyTakeLast maxContextMessages messages
    let messageDicts : List JValue :=
      limited.filterMap
        (fun m =>
          if m.content.trim = "" then none
          else
            some (.jobj
              [("role", .jstr (if m.role = .user then "user" else "assistant")),
               ("content", .jstr m.content)]))
    let agentChatK := parseLimitWithDefault env.agentChatK
    let payload : JValue :=
      .jobj
        [("messages", .jarr messageDicts),
         ("custom_inputs",
          .jobj
            [("filters", .jobj [("user_name", .jstr currentUser)]),
             ("k", .jnum agentChatK)])]
    let _payloadJson := jsonDumps payload
    match env.doCallResult with
    | .error e => "Error calling model serving endpoint: " ++ e
    | .ok response => normalize_response_to_text response

/-! ## Generation worker (task queue) and the send_message work function -/

/-- Modelled from the spec: the worker path of `submit_generation` in the
missing `app/services/task_queue.py`, for the simulate_stream equals false
mode used by send_message (spec sections 4.2 and 4.3): on normal
completion the full response text is the buffer content and the buffer is
marked done with no error; when the work function raises, nothing is
appended and the buffer is marked done with the stringified exception. -/
def run_generation (workFn : Except String String) : GenBuffer :=
  match workFn with
  | .ok s => { content := s, isDone := true, error := none }
  | .error e => { content := "", isDone := true, error := some e }

/-- Stable sort of messages by their order key, as Python sorted with an
order key. -/
def sortByOrder (messages : List Message) : List Message :=
  messages.insertionSort (fun a b => a.order ≤ b.order)

/-- The generate work function built inside send_message (dash_app.py,
lines 449 to 457): sort the optimistic transcript by order, convert to
chat messages, and call generate_bot_response.  Since
generate_bot_response is total, the work function never raises and always
yields an ok result. -/
def send_generate_work_fn (env : AgentEnv) (userName : String)
    (messages : List Message) : Except String String :=
  let historyMsgs : List AgentChatMessage :=
    (sortByOrder messages).map (fun m => { role := m.role, content := m.content })
  .ok (generate_bot_response env userName historyMsgs)

/-! ## tick (dash_app.py, lines 583 to 724) -/

/-- Outcome of the generation-integration step of tick for one message. -/
structure GenStepResult where
  message : Message
  changed : Bool
  active : Bool
  save : Option String
  deriving Repr

/-- Processing of one message by the streaming-update loop of tick
(dash_app.py, lines 632 to 662): non-assistant messages and messages
without a buffer pass through; otherwise the content is refreshed from
the buffer, a buffer error is attached once, and a done, error-free,
nonempty, unsaved and non-saving message gets a save submitted and is
marked saving. -/
def genStep (bufs : List (String × GenBuffer)) (m : Message) : GenStepResult :=
  if m.role ≠ MsgRole.assistant then
    { message := m, changed := false, active := false, save := none }
  else
    match alookup bufs m.id with
    | none => { message := m, changed := false, active := false, save := none }
    | some buf =>
      let active := !buf.isDone
      let m1 := if buf.content ≠ m.content then { m with content := buf.content } else m
      let c1 := decide (buf.content ≠ m.content)
      if buf.isDone then
        let attach := optTruthy buf.error && !(optTruthy m1.error)
        let m2 := if attach then { m1 with error := buf.error } else m1
        let c2 := c1 || attach
        if optTruthy m2.error = false ∧ m2.saved = false ∧ m2.content ≠ "" ∧
            m2.saving = false then
          { message := { m2 with saving := true }, changed := true,
            active := active, save := some m2.id }
        else
          { message := m2, changed := c2, active := active, save := none }
      else
        { message := m1, changed := c1, active := active, save := none }

/-- Accumulated result of the streaming-update loop of tick. -/
structure GenLoopResult where
  messages : List Message
  changed : Bool
  hasActiveGeneration : Bool
  submittedSaves : List String
  deriving Repr

/-- The streaming-update loop of tick over the message list, in order. -/
def genLoop (bufs : List (String × GenBuffer)) : List Message → GenLoopResult
  | [] =>
    { messages := [], changed := false, hasActiveGeneration := false,
      submittedSaves := [] }
  | m :: rest =>
    let s := genStep bufs m
    let r := genLoop bufs rest
    { messages := s.message :: r.messages,
      changed := s.changed || r.changed,
      hasActiveGeneration := s.active || r.hasActiveGeneration,
      submittedSaves := (s.save.toList) ++ r.submittedSaves }

/-- The error text attached on a failed save: the status error when it is
a truthy string, otherwise the fallback text, as in the expression
`status.error or` fallback of dash_app.py line 681. -/
def saveFailureText (s : SaveStatus) : String :=
  match s.error with
  | some e => if e ≠ "" then e else "Failed to save"
  | none => "Failed to save"

/-- Outcome of the save-status step of tick for one message. -/
structure SaveStepResult where
  message : Message
  store : SaveStore
  errEntry : Option ErrEntry
  changed : Bool
  pending : Bool
  deriving Repr

/-- Processing of one message by the save-status loop of tick
(dash_app.py, lines 664 to 684): its status is popped once; absence
leaves the message unchanged and counts it pending when it is saving and
unsaved; a success status marks it saved; a failure status marks it
unsaved with the status error or the fallback text, and surfaces a
non-blocking error entry. -/
def saveStep (st : SaveStore) (m : Message) : SaveStepResult :=
  let popped := pop_save_status st m.id
  match popped.1 with
  | none =>
    { message := m, store := popped.2, errEntry := none, changed := false,
      pending := m.saving && !m.saved }
  | some s =>
    if s.ok then
      { message := { m with saved := true, saving := false, error := none },
        store := popped.2, errEntry := none, changed := true, pending := false }
    else
      let errMsg := saveFailureText s
      { message := { m with saved := false, saving := false, error := some errMsg },
        store := popped.2,
        errEntry := some { messageId := m.id, stage := "save", error := errMsg },
        changed := true, pending := false }

/-- Accumulated result of the save-status loop of tick. -/
structure SaveLoopResult where
  messages : List Message
  store : SaveStore
  newErrors : List ErrEntry
  changed : Bool
  hasPendingSave : Bool
  deriving Repr

/-- The save-status loop of tick over the message list, threading the
save-status store so each status is consumed at most once. -/
def saveLoop (st : SaveStore) : List Message → SaveLoopResult
  | [] =>
    { messages := [], store := st, newErrors := [], changed := false,
      hasPendingSave := false }
  | m :: rest =>
    let s := saveStep st m
    let r := saveLoop s.store rest
    { messages := s.message :: r.messages,
      store := r.store,
      newErrors := s.errEntry.toList ++ r.newErrors,
      changed := s.changed || r.changed,
      hasPendingSave := s.pending || r.hasPendingSave }

/-- The sessions merge of tick (dash_app.py, lines 694 to 716): loaded
sessions are kept in order, inheriting a truthy existing title when the
loaded one is falsy, and existing sessions absent from the loaded list
are appended. -/
def mergeSessions (existing : List SessionItem) (loaded : List SessionItem) :
    List SessionItem :=
  let existingById :=
    existing.foldl
      (fun d s => if s.id ≠ "" then dictInsert d s.id s else d)
      ([] : List (String × SessionItem))
  let loadedById :=
    loaded.foldl
      (fun d s => if s.id ≠ "" then dictInsert d s.id s else d)
      ([] : List (String × SessionItem))
  let merged :=
    loaded.map
      (fun s =>
        match alookup existingById s.id with
        | some e =>
          if optTruthy e.title = true ∧ optTruthy s.title = false then
            { s with title := e.title }
          else s
        | none => s)
  merged ++
    existingById.filterMap
      (fun p => if (alookup loadedById p.1).isNone then some p.2 else none)

/-- The history pop performed by tick for the current chat: only a truthy
current chat id is looked up. -/
def loadedHistoryFor (cs : ChatState) (store : List (String × List Message)) :
    Option (List Message) :=
  match cs.currentChatId with
  | some cid => if cid ≠ "" then alookup store cid else none
  | none => none

/-- Inputs of one tick callback: the three stores read by the callback
plus the poll-store contents ready at this tick.  The history store maps
chat ids to completed history payloads and the sessions result is the
completed payload under the sessions sentinel key; each is consumed at
most once inside the tick, so the pop is modelled by a single lookup. -/
structure TickInput where
  chatState : Option ChatState
  errorsState : List ErrEntry
  sessionsData : Option (List SessionItem)
  historyStore : List (String × List Message)
  sessionsResult : Option (List SessionItem)
  genBuffers : List (String × GenBuffer)
  saveStore : SaveStore
  fastMs : Nat
  slowMs : Nat

/-- Outputs of one tick callback; `none` stands for no_update. -/
structure TickOutput where
  chatOut : Option ChatState
  errorsOut : Option (List ErrEntry)
  sessionsOut : Option (List SessionItem)
  nextIntervalMs : Nat
  submittedSaves : List String

/-- The tick callback of dash_app.py: integrate completed history and
sessions loads, refresh generation buffers, submit saves for completed
generations, merge popped save statuses, and choose the next poll
interval. -/
def tick (inp : TickInput) : TickOutput :=
  match inp.chatState with
  | none =>
    match inp.sessionsResult with
    | some ls =>
      { chatOut := none, errorsOut := none, sessionsOut := some ls,
        nextIntervalMs := inp.slowMs, submittedSaves := [] }
    | none =>
      { chatOut := none, errorsOut := none, sessionsOut := none,
        nextIntervalMs := inp.slowMs, submittedSaves := [] }
  | some cs =>
    let currentChatId := cs.currentChatId
    let loadedHistory := loadedHistoryFor cs inp.historyStore
    let loadedSessions := inp.sessionsResult
    let messages0 := loadedHistory.getD cs.messages
    let changed0 := loadedHistory.isSome
    let isLoading1 := if loadedHistory.isSome then false else cs.isLoading
    let g := genLoop inp.genBuffers messages0
    let sres := saveLoop inp.saveStore g.messages
    let changed := changed0 || g.changed || sres.changed
    let errorsList := inp.errorsState ++ sres.newErrors
    let nextInterval :=
      if g.hasActiveGeneration || sres.hasPendingSave || isLoading1 then
        inp.fastMs
      else inp.slowMs
    if changed = false ∧ loadedSessions = none then
      { chatOut := none, errorsOut := none, sessionsOut := none,
        nextIntervalMs := nextInterval, submittedSaves := g.submittedSaves }
    else
      { chatOut := some { currentChatId := currentChatId,
                          messages := sres.messages, isLoading := false },
        errorsOut := some errorsList,
        sessionsOut :=
          loadedSessions.map (fun ls => mergeSessions (inp.sessionsData.getD []) ls),
        nextIntervalMs := nextInterval,
        submittedSaves := g.submittedSaves }

/-! ## Specification-level predicates about one tick -/

/-- The history payload popped by this tick for the current chat, if any. -/
def tickLoadedHistory (inp : TickInput) : Option (List Message) :=
  match inp.chatState with
  | none => none
  | some cs => loadedHistoryFor cs inp.historyStore

/-- The message list after the history integration step. -/
def tickMessagesAfterHistory (inp : TickInput) : List Message :=
  match inp.chatState with
  | none => []
  | some cs => (tickLoadedHistory inp).getD cs.messages

/-- Whether the chat is still marked loading after history integration. -/
def tickIsLoadingAfterHistory (inp : TickInput) : Bool :=
  match inp.chatState with
  | none => false
  | some cs =>
    match tickLoadedHistory inp with
    | some _ => false
    | none => cs.isLoading

/-- Whether some assistant message in current state has a generation
buffer that is not yet done. -/
def tickHasActiveGeneration (inp : TickInput) : Bool :=
  (tickMessagesAfterHistory inp).any
    (fun m =>
      m.role == MsgRole.assistant &&
      (match alookup inp.genBuffers m.id with
       | some buf => !buf.isDone
       | none => false))

/-- Whether some message has a submitted but unresolved save: its status
is absent at its pop and the message is saving and unsaved, read over the
messages as updated by the generation loop. -/
def pendingAfter (st : SaveStore) : List Message → Bool
  | [] => false
  | m :: rest =>
    let popped := pop_save_status st m.id
    (match popped.1 with
     | none => m.saving && !m.saved
     | some _ => false) || pendingAfter popped.2 rest

/-- Whether this tick observes a pending save. -/
def tickHasPendingSave (inp : TickInput) : Bool :=
  match inp.chatState with
  | none => false
  | some _ =>
    pendingAfter inp.saveStore
      (genLoop inp.genBuffers (tickMessagesAfterHistory inp)).messages

/-! ## Title generation (app.py, lines 90 to 226) -/

/-- Python strip of one character from both ends of a string, as in
`strip` with an explicit character argument. -/
def pyStripChar (c : Char) (s : String) : String :=
  String.mk (((s.data.dropWhile (· == c)).reverse.dropWhile (· == c)).reverse)

/-- Python `split` with no arguments: split on whitespace runs, dropping
empty pieces. -/
def pySplitWhitespace (s : String) : List String :=
  (s.split Char.isWhitespace).filter (fun t => decide (t ≠ ""))

/-- The prefixes removed from a generated title in
`generate_title_with_llama`. -/
def titlePrefixes : List String :=
  ["Title:", "title:", "TITLE:", "Generated title:", "The title is:",
   "Here\x27s a title:"]

/-- Sequential removal of known title prefixes, case-insensitively, each
removal followed by a strip, as in `generate_title_with_llama`. -/
def removeTitlePrefixes (t : String) : String :=
  titlePrefixes.foldl
    (fun title p =>
      if title.toLower.startsWith p.toLower then (title.drop p.length).trim
      else title)
    t

/-- The `generate_title_with_llama` function of app.py: extract the title
text from the llama response (list head, choices chain, or stringified
response; an extraction error is swallowed), clean it up, cap it at 15
words and 60 characters, and fall back to the fixed text New Chat when
the call raises, extraction raises, or the result is empty. -/
def generate_title_with_llama (llamaResp : Except String JValue) : String :=
  match llamaResp with
  | .error _ => "New Chat"
  | .ok response =>
    let extracted : Option String :=
      match response with
      | .jarr (.jstr s :: _) => some s.trim
      | .jarr (_ :: _) => none
      | .jobj fields =>
        (match alookup fields "choices" with
         | some (.jarr (.jobj cf :: _)) =>
           (match alookup cf "message" with
            | some (.jobj mf) =>
              (match alookup mf "content" with
               | some (.jstr s) => some s.trim
               | _ => none)
            | _ => none)
         | some _ => none
         | none => some (pyStr response).trim)
      | other => some (pyStr other).trim
    match extracted with
    | none => "New Chat"
    | some title0 =>
      let ta := title0.trim
      let tb := pyStripChar '"' ta
      let tc := pyStripChar '\x27' tb
      let td := tc.trim
      let te := removeTitlePrefixes td
      let words := pySplitWhitespace te
      let tf := if words.length > 15 then " ".intercalate (words.take 15) else te
      let tg := if tf.length > 60 then tf.take 57 ++ "..." else tf
      if tg ≠ "" then tg else "New Chat"

/-- One stored chat-history row as used by the title context query. -/
structure StoredMsg where
  msgType : MsgRole
  content : String
  deriving DecidableEq, Repr

/-- Environment of one `generate_chat_title` call: the outcomes of the
context query over the first messages, the llama call, the title commit,
the fallback first-user-message query, and the fallback commit.  Each
error value carries the stringified exception of the corresponding
database or network operation. -/
structure TitleEnv where
  ctxMessages : Except String (List StoredMsg)
  llamaResp : Except String JValue
  titleCommit : Except String Unit
  firstUserMsg : Except String (Option String)
  fallbackCommit : Except String Unit

/-- The fallback branch of `generate_chat_title` (app.py, lines 199 to
226): the first user message truncated to 30 characters plus an ellipsis
when longer, with any failure of the inner query or commit swallowed into
the fixed text New Chat. -/
def titleFallback (env : TitleEnv) : String :=
  match env.firstUserMsg with
  | .error _ => "New Chat"
  | .ok none => "New Chat"
  | .ok (some content) =>
    let fb := if content.length > 30 then content.take 30 ++ "..." else content
    match env.fallbackCommit with
    | .error _ => "New Chat"
    | .ok _ => fb

/-- The `generate_chat_title` function of app.py: with fewer than two
context messages the fixed text New Chat; otherwise the llama-generated
title, committed to the session; when the context query or the commit
raises, the truncated-first-message fallback. -/
def generate_chat_title (env : TitleEnv) : String :=
  match env.ctxMessages with
  | .error _ => titleFallback env
  | .ok msgs =>
    if msgs.length < 2 then "New Chat"
    else
      let context := msgs.map
        (fun m =>
          (if m.msgType = MsgRole.user then "User" else "Assistant") ++ ": " ++
            m.content.take 150 ++ "...")
      let _contextText := "\n".intercalate context
      let title := generate_title_with_llama env.llamaResp
      match env.titleCommit with
      | .error _ => titleFallback env
      | .ok _ => title

/-- The `ai_rename_chat` callback of dash_app.py (lines 556 to 580): with
a current chat selected, obtain the new title from the chat-service title
pipeline and optimistically rewrite the matching session entry, the new
title falling back to the old one or Untitled when falsy.  Its only
output is the sessions list. -/
def ai_rename_chat (chatState : Option ChatState)
    (sessions : Option (List SessionItem)) (env : TitleEnv) :
    Option (List SessionItem) :=
  match chatState with
  | none => none
  | some cs =>
    match cs.currentChatId with
    | none => none
    | some cid =>
      if cid = "" then none
      else
        let newTitle := generate_chat_title env
        some ((sessions.getD []).map
          (fun s =>
            if s.id = cid then
              { s with title :=
                  if newTitle ≠ "" then some newTitle
                  else if optTruthy s.title then s.title
                  else some "Untitled" }
            else s))

end ChatApp

namespace ChatApp

theorem alookup_aerase (st : List (String × α)) (k i : String) :
    alookup (aerase st k) i = if k = i then none else alookup st i := by
  induction st with
  | nil => simp [aerase, alookup]
  | cons p rest ih =>
    obtain ⟨k', v⟩ := p
    by_cases hk : k' = k
    · subst hk
      by_cases hi : k' = i
      · subst hi
        simp [aerase, alookup] at ih ⊢
        simpa [aerase] using ih
      · simp [aerase, alookup, hi, Ne.symm hi] at ih ⊢
        simpa [aerase, hi] using ih
    · by_cases hi : k' = i
      · subst hi
        have hki : ¬ k = k' := fun h => hk h.symm
        simp [aerase, alookup, hk, hki]
      · simp [aerase, alookup, hk, hi] at ih ⊢
        simpa [aerase, hi] using ih

theorem alookup_append (xs ys : List (String × α)) (i : String) :
    alookup (xs ++ ys) i =
      match alookup xs i with
      | some v => some v
      | none => alookup ys i := by
  induction xs with
  | nil => simp [alookup]
  | cons p rest ih =>
    obtain ⟨k', v⟩ := p
    by_cases hi : k' = i
    · simp [alookup, hi]
    · simp [alookup, hi, ih]

theorem alookup_map_replace (st : List (String × α)) (k : String) (v : α)
    (i : String) :
    alookup (st.map (fun p => if p.1 = k then (k, v) else p)) i =
      if k = i then (alookup st k).map (fun _ => v) else alookup st i := by
  induction st with
  | nil => simp [alookup]
  | cons p rest ih =>
    obtain ⟨k', w⟩ := p
    simp only [List.map_cons]
    by_cases hk : k' = k
    · subst hk
      rw [if_pos rfl]
      by_cases hi : k' = i
      · subst hi
        simp [alookup]
      · simp [alookup, hi, Ne.symm hi, ih]
    · rw [if_neg hk]
      by_cases hi : k' = i
      · subst hi
        have hki : ¬ k = k' := fun h => hk h.symm
        simp [alookup, hki]
      · simp [alookup, hk, hi, ih]

theorem alookup_dictInsert (st : List (String × α)) (k : String) (v : α)
    (i : String) :
    alookup (dictInsert st k v) i = if k = i then some v else alookup st i := by
  unfold dictInsert
  cases h : alookup st k with
  | some w =>
    simp only [h, Option.isSome_some, if_true]
    rw [alookup_map_replace, h]
    by_cases hi : k = i <;> simp [hi]
  | none =>
    simp only [h, Option.isSome_none, Bool.false_eq_true, if_false]
    rw [alookup_append]
    by_cases hi : k = i
    · subst hi
      simp [h, alookup]
    · cases hx : alookup st i <;> simp [alookup, hi, hx]

theorem alookup_applySaveOps_none (ops : List SaveOp) (st : SaveStore)
    (i : String) (hst : alookup st i = none)
    (hops : ∀ op ∈ ops, completesId i op = false) :
    alookup (applySaveOps st ops) i = none := by
  induction ops generalizing st with
  | nil => simpa [applySaveOps] using hst
  | cons op rest ih =>
    cases op with
    | complete j outcome =>
      have hj : (j == i) = false := hops (.complete j outcome) (by simp)
      have hji : ¬ j = i := by simpa using hj
      refine ih (complete_save st j outcome) ?_ ?_
      · unfold complete_save
        rw [alookup_dictInsert, if_neg hji]
        exact hst
      · intro op hop
        exact hops op (by simp [hop])
    | pop j =>
      refine ih (pop_save_status st j).2 ?_ ?_
      · show alookup (aerase st j) i = none
        rw [alookup_aerase]
        by_cases hj : j = i
        · simp [hj]
        · simpa [hj] using hst
      · intro op hop
        exact hops op (by simp [hop])

/-- C7: pop-once semantics of the save-status store.  A popped status is
cleared, so an immediate second pop returns none; it stays none across any
sequence of operations that contains no save completion for that id; and
the literal scenario: a save whose work function raises
ConnectionError with message db down yields the failed status exactly
once and none thereafter. -/
theorem pop_save_status_pop_once :
    (∀ (st : SaveStore) (i : String) (s : SaveStatus),
        (pop_save_status st i).1 = some s →
        (pop_save_status (pop_save_status st i).2 i).1 = none) ∧
    (∀ (st : SaveStore) (ops : List SaveOp) (i : String),
        alookup st i = none →
        (∀ op ∈ ops, completesId i op = false) →
        (pop_save_status (applySaveOps st ops) i).1 = none) ∧
    (pop_save_status (complete_save [] "m1" (.error "db down")) "m1" =
        (some { ok := false, error := some "db down" }, []) ∧
      (pop_save_status
          (pop_save_status (complete_save [] "m1" (.error "db down")) "m1").2
          "m1").1 = none) := by
  refine ⟨?_, ?_, ?_, ?_⟩
  · intro st i s _
    show alookup (aerase st i) i = none
    rw [alookup_aerase]
    simp
  · intro st ops i hst hops
    exact alookup_applySaveOps_none ops st i hst hops
  · decide
  · decide

/-- Witness for C7 at concrete inputs. -/
theorem pop_save_status_pop_once_witness :
    (pop_save_status
        (pop_save_status [("m1", SaveStatus.mk true none)] "m1").2 "m1").1 = none ∧
    (pop_save_status (applySaveOps [] [SaveOp.pop "x"]) "m1").1 = none := by
  refine ⟨?_, ?_⟩
  · exact pop_save_status_pop_once.1 [("m1", SaveStatus.mk true none)] "m1"
      (SaveStatus.mk true none) (by decide)
  · exact pop_save_status_pop_once.2.1 [] [SaveOp.pop "x"] "m1" (by decide)
      (by decide)

/-- C2: with nonempty text and a selected chat, send_message appends the
user message at order `max(orders, default -1) + 1` and the placeholder
assistant message at the next order, synchronously, before returning. -/
theorem send_message_optimistic_orders (cs : ChatState) (text uid aid : String)
    (htext : text ≠ "") (hcur : optTruthy cs.currentChatId = true) :
    send_message text (some cs) uid aid =
      some { state :=
               { currentChatId := cs.currentChatId,
                 messages := cs.messages ++
                   [{ id := uid, role := .user, content := text,
                      order := pyMaxDefault (cs.messages.map Message.order) (-1) + 1,
                      saved := false, saving := true, error := none },
                    { id := aid, role := .assistant, content := "",
                      order := pyMaxDefault (cs.messages.map Message.order) (-1) + 1 + 1,
                      saved := false, saving := false, error := none }],
                 isLoading := false },
             savedUserId := uid, genAssistantId := aid, clearedInput := "" } := by
  simp [send_message, htext, hcur]

theorem genStep_active (bufs : List (String × GenBuffer)) (m : Message) :
    (genStep bufs m).active =
      (m.role == MsgRole.assistant &&
        (match alookup bufs m.id with
         | some buf => !buf.isDone
         | none => false)) := by
  unfold genStep
  by_cases hrole : m.role = MsgRole.assistant
  · rw [if_neg (fun hc => hc hrole)]
    cases hb : alookup bufs m.id with
    | none => simp [hrole, hb]
    | some buf =>
      simp only [hb]
      by_cases hdone : buf.isDone
      · simp only [hdone, if_true]
        repeat' split
        all_goals simp
      · simp [hdone, hrole]
  · rw [if_pos hrole]
    cases hr : m.role with
    | user => simp
    | assistant => exact absurd hr hrole

theorem genLoop_active (bufs : List (String × GenBuffer)) (ms : List Message) :
    (genLoop bufs ms).hasActiveGeneration =
      ms.any
        (fun m =>
          m.role == MsgRole.assistant &&
          (match alookup bufs m.id with
           | some buf => !buf.isDone
           | none => false)) := by
  induction ms with
  | nil => rfl
  | cons m rest ih => simp [genLoop, genStep_active, ih]

theorem saveStep_store (st : SaveStore) (m : Message) :
    (saveStep st m).store = (pop_save_status st m.id).2 := by
  unfold saveStep
  cases h : (pop_save_status st m.id).1 with
  | none => simp [h]
  | some s =>
    simp only [h]
    by_cases hok : s.ok = true <;> simp [hok]

theorem saveStep_pending (st : SaveStore) (m : Message) :
    (saveStep st m).pending =
      (match (pop_save_status st m.id).1 with
       | none => m.saving && !m.saved
       | some _ => false) := by
  unfold saveStep
  cases h : (pop_save_status st m.id).1 with
  | none => simp [h]
  | some s =>
    simp only [h]
    by_cases hok : s.ok = true <;> simp [hok]

theorem saveLoop_pending (st : SaveStore) (ms : List Message) :
    (saveLoop st ms).hasPendingSave = pendingAfter st ms := by
  induction ms generalizing st with
  | nil => rfl
  | cons m rest ih =>
    simp [saveLoop, pendingAfter, ih, saveStep_store, saveStep_pending]

theorem tick_nextInterval (inp : TickInput) :
    (tick inp).nextIntervalMs =
      if tickHasActiveGeneration inp || tickHasPendingSave inp ||
          tickIsLoadingAfterHistory inp then
        inp.fastMs
      else inp.slowMs := by
  cases hcs : inp.chatState with
  | none =>
    cases hsr : inp.sessionsResult <;>
      simp [tick, hcs, hsr, tickHasActiveGeneration, tickMessagesAfterHistory,
        tickLoadedHistory, tickHasPendingSave, tickIsLoadingAfterHistory]
  | some cs =>
    have hmsgs : tickMessagesAfterHistory inp =
        (loadedHistoryFor cs inp.historyStore).getD cs.messages := by
      simp [tickMessagesAfterHistory, tickLoadedHistory, hcs]
    have hload : tickIsLoadingAfterHistory inp =
        (if (loadedHistoryFor cs inp.historyStore).isSome then false
         else cs.isLoading) := by
      simp only [tickIsLoadingAfterHistory, tickLoadedHistory, hcs]
      cases h : loadedHistoryFor cs inp.historyStore <;> simp [h]
    have hactive : tickHasActiveGeneration inp =
        (genLoop inp.genBuffers
          ((loadedHistoryFor cs inp.historyStore).getD cs.messages)).hasActiveGeneration := by
      rw [genLoop_active, tickHasActiveGeneration, hmsgs]
    have hpend : tickHasPendingSave inp =
        (saveLoop inp.saveStore
          (genLoop inp.genBuffers
            ((loadedHistoryFor cs inp.historyStore).getD cs.messages)).messages).hasPendingSave := by
      rw [saveLoop_pending, tickHasPendingSave]
      simp only [hcs, hmsgs]
    rw [hactive, hpend, hload]
    simp only [tick, hcs]
    split <;> rfl

/-- C3: the next poll interval equals the configured fast interval exactly
when some assistant message still has an unfinished generation buffer,
some message has a submitted but unresolved save, or the chat is marked
loading after history integration; otherwise it equals the slow interval.
In particular, a single assistant message with an unfinished buffer gives
the fast interval, and once that buffer is done and its save status has
been popped successfully with nothing else pending, the interval is slow. -/
theorem tick_adaptive_interval :
    (∀ inp : TickInput, inp.fastMs ≠ inp.slowMs →
      ((tick inp).nextIntervalMs = inp.fastMs ↔
        (tickHasActiveGeneration inp = true ∨ tickHasPendingSave inp = true ∨
          tickIsLoadingAfterHistory inp = true))) ∧
    (tick
        { chatState := some
            { currentChatId := some "c",
              messages := [{ id := "a1", role := MsgRole.assistant, content := "",
                             order := 1, saved := false, saving := false,
                             error := none }],
              isLoading := false },
          errorsState := [], sessionsData := none, historyStore := [],
          sessionsResult := none,
          genBuffers := [("a1", { content := "", isDone := false, error := none })],
          saveStore := [], fastMs := 150, slowMs := 2000 }).nextIntervalMs = 150 ∧
    (tick
        { chatState := some
            { currentChatId := some "c",
              messages := [{ id := "a1", role := MsgRole.assistant, content := "hi",
                             order := 1, saved := false, saving := true,
                             error := none }],
              isLoading := false },
          errorsState := [], sessionsData := none, historyStore := [],
          sessionsResult := none,
          genBuffers := [("a1", { content := "hi", isDone := true, error := none })],
          saveStore := [("a1", { ok := true, error := none })],
          fastMs := 150, slowMs := 2000 }).nextIntervalMs = 2000 := by
  refine ⟨?_, ?_, ?_⟩
  · intro inp hne
    rw [tick_nextInterval]
    constructor
    · intro h
      by_contra hno
      push_neg at hno
      obtain ⟨h1, h2, h3⟩ := hno
      simp only [Bool.not_eq_true] at h1 h2 h3
      rw [h1, h2, h3] at h
      simp at h
      exact hne h.symm
    · intro h
      rcases h with h | h | h <;> simp [h]
  · decide
  · decide

/-- Witness for C3 at a concrete input, discharging the distinct-interval
hypothesis. -/
theorem tick_adaptive_interval_witness :
    (tick
        { chatState := none, errorsState := [], sessionsData := none,
          historyStore := [], sessionsResult := none, genBuffers := [],
          saveStore := [], fastMs := 150, slowMs := 2000 }).nextIntervalMs = 150 ↔
      (tickHasActiveGeneration
          { chatState := none, errorsState := [], sessionsData := none,
            historyStore := [], sessionsResult := none, genBuffers := [],
            saveStore := [], fastMs := 150, slowMs := 2000 } = true ∨
        tickHasPendingSave
          { chatState := none, errorsState := [], sessionsData := none,
            historyStore := [], sessionsResult := none, genBuffers := [],
            saveStore := [], fastMs := 150, slowMs := 2000 } = true ∨
        tickIsLoadingAfterHistory
          { chatState := none, errorsState := [], sessionsData := none,
            historyStore := [], sessionsResult := none, genBuffers := [],
            saveStore := [], fastMs := 150, slowMs := 2000 } = true) :=
  tick_adaptive_interval.1
    { chatState := none, errorsState := [], sessionsData := none,
      historyStore := [], sessionsResult := none, genBuffers := [],
      saveStore := [], fastMs := 150, slowMs := 2000 } (by decide)

theorem genStep_submit (bufs : List (String × GenBuffer)) (m : Message)
    (buf : GenBuffer) (hrole : m.role = MsgRole.assistant)
    (hbuf : alookup bufs m.id = some buf) (hdone : buf.isDone = true)
    (hbuferr : optTruthy buf.error = false) (hmerr : optTruthy m.error = false)
    (hsaved : m.saved = false) (hsaving : m.saving = false)
    (hcontent : buf.content ≠ "") :
    genStep bufs m =
      { message := { m with content := buf.content, saving := true },
        changed := true, active := false, save := some m.id } := by
  obtain ⟨mid, mrole, mcontent, morder, msaved, msaving, merror⟩ := m
  dsimp only at hrole hbuf hmerr hsaved hsaving ⊢
  subst hrole
  subst hsaved
  subst hsaving
  unfold genStep
  simp only [hbuf]
  by_cases hc : buf.content = mcontent
  · subst hc
    simp [hdone, hbuferr, hmerr, hcontent]
  · simp [hdone, hbuferr, hmerr, hcontent, hc]

theorem genLoop_submit_mem (bufs : List (String × GenBuffer)) (ms : List Message)
    (m : Message) (buf : GenBuffer) (hm : m ∈ ms)
    (hrole : m.role = MsgRole.assistant) (hbuf : alookup bufs m.id = some buf)
    (hdone : buf.isDone = true) (hbuferr : optTruthy buf.error = false)
    (hmerr : optTruthy m.error = false) (hsaved : m.saved = false)
    (hsaving : m.saving = false) (hcontent : buf.content ≠ "") :
    m.id ∈ (genLoop bufs ms).submittedSaves ∧
    { m with content := buf.content, saving := true } ∈ (genLoop bufs ms).messages ∧
    (genLoop bufs ms).changed = true := by
  induction ms with
  | nil => cases hm
  | cons x rest ih =>
    rcases List.mem_cons.mp hm with rfl | hm'
    · have hstep := genStep_submit bufs m buf hrole hbuf hdone hbuferr hmerr
        hsaved hsaving hcontent
      refine ⟨?_, ?_, ?_⟩ <;> simp [genLoop, hstep]
    · obtain ⟨h1, h2, h3⟩ := ih hm'
      refine ⟨?_, ?_, ?_⟩ <;> simp [genLoop, h1, h2, h3]

theorem saveStep_absent (st : SaveStore) (m : Message)
    (habs : alookup st m.id = none) : (saveStep st m).message = m := by
  unfold saveStep
  simp [pop_save_status, habs]

theorem saveLoop_preserves_absent (ms : List Message) :
    ∀ (st : SaveStore) (m' : Message), m' ∈ ms → alookup st m'.id = none →
      m' ∈ (saveLoop st ms).messages := by
  induction ms with
  | nil =>
    intro st m' hm' _
    cases hm'
  | cons x rest ih =>
    intro st m' hm' habs
    rcases List.mem_cons.mp hm' with rfl | hmem
    · simp [saveLoop, saveStep_absent st m' habs]
    · have hstore : (saveStep st x).store = aerase st x.id := by
        rw [saveStep_store]
        rfl
      have habs' : alookup ((saveStep st x).store) m'.id = none := by
        rw [hstore, alookup_aerase]
        split
        · rfl
        · exact habs
      simp only [saveLoop]
      exact List.mem_cons_of_mem _ (ih (saveStep st x).store m' hmem habs')

theorem tick_submittedSaves_eq (inp : TickInput) (cs : ChatState)
    (hcs : inp.chatState = some cs) :
    (tick inp).submittedSaves =
      (genLoop inp.genBuffers
        ((loadedHistoryFor cs inp.historyStore).getD cs.messages)).submittedSaves := by
  simp only [tick, hcs]
  split <;> rfl

theorem tick_chatOut_changed (inp : TickInput) (cs : ChatState)
    (hcs : inp.chatState = some cs)
    (hchanged : ((loadedHistoryFor cs inp.historyStore).isSome
        || (genLoop inp.genBuffers
            ((loadedHistoryFor cs inp.historyStore).getD cs.messages)).changed
        || (saveLoop inp.saveStore
            (genLoop inp.genBuffers
              ((loadedHistoryFor cs inp.historyStore).getD cs.messages)).messages).changed)
        = true) :
    (tick inp).chatOut =
      some { currentChatId := cs.currentChatId,
             messages := (saveLoop inp.saveStore
               (genLoop inp.genBuffers
                 ((loadedHistoryFor cs inp.historyStore).getD cs.messages)).messages).messages,
             isLoading := false } := by
  have hnc : ¬ (((loadedHistoryFor cs inp.historyStore).isSome
      || (genLoop inp.genBuffers
          ((loadedHistoryFor cs inp.historyStore).getD cs.messages)).changed
      || (saveLoop inp.saveStore
          (genLoop inp.genBuffers
            ((loadedHistoryFor cs inp.historyStore).getD cs.messages)).messages).changed)
        = false ∧
      inp.sessionsResult = none) := by
    intro hfc
    rw [hchanged] at hfc
    simp at hfc
  simp only [tick, hcs]
  rw [if_neg hnc]

/-- C4, amended: on a tick without a history replacement, every assistant
message in state whose generation buffer is done with no truthy error,
which is not yet saved and not marked saving, and whose buffer content is
nonempty, has a save submitted for its id and appears marked saving in
the emitted chat state. -/
theorem tick_submits_save_for_done_generation (inp : TickInput) (cs : ChatState)
    (m : Message) (buf : GenBuffer)
    (hcs : inp.chatState = some cs)
    (hnh : loadedHistoryFor cs inp.historyStore = none)
    (hm : m ∈ cs.messages) (hrole : m.role = MsgRole.assistant)
    (hbuf : alookup inp.genBuffers m.id = some buf) (hdone : buf.isDone = true)
    (hbuferr : optTruthy buf.error = false) (hmerr : optTruthy m.error = false)
    (hsaved : m.saved = false) (hsaving : m.saving = false)
    (hcontent : buf.content ≠ "")
    (hnostatus : alookup inp.saveStore m.id = none) :
    m.id ∈ (tick inp).submittedSaves ∧
    ∃ st, (tick inp).chatOut = some st ∧
      { m with content := buf.content, saving := true } ∈ st.messages := by
  obtain ⟨h1, h2, h3⟩ := genLoop_submit_mem inp.genBuffers cs.messages m buf hm
    hrole hbuf hdone hbuferr hmerr hsaved hsaving hcontent
  have hmsgs0 : (loadedHistoryFor cs inp.historyStore).getD cs.messages =
      cs.messages := by
    rw [hnh]
    rfl
  constructor
  · rw [tick_submittedSaves_eq inp cs hcs, hmsgs0]
    exact h1
  · have hchanged : ((loadedHistoryFor cs inp.historyStore).isSome
        || (genLoop inp.genBuffers
            ((loadedHistoryFor cs inp.historyStore).getD cs.messages)).changed
        || (saveLoop inp.saveStore
            (genLoop inp.genBuffers
              ((loadedHistoryFor cs inp.historyStore).getD cs.messages)).messages).changed)
        = true := by
      rw [hnh]
      simp [h3]
    refine ⟨_, tick_chatOut_changed inp cs hcs hchanged, ?_⟩
    dsimp only
    rw [hmsgs0]
    exact saveLoop_preserves_absent _ inp.saveStore _ h2 hnostatus

/-- Witness for C4 at a concrete input. -/
theorem tick_submits_save_for_done_generation_witness :
    "a1" ∈ (tick
        { chatState := some
            { currentChatId := some "c",
              messages := [{ id := "a1", role := MsgRole.assistant, content := "",
                             order := 1, saved := false, saving := false,
                             error := none }],
              isLoading := false },
          errorsState := [], sessionsData := none, historyStore := [],
          sessionsResult := none,
          genBuffers := [("a1", { content := "hello", isDone := true, error := none })],
          saveStore := [], fastMs := 150, slowMs := 2000 }).submittedSaves :=
  (tick_submits_save_for_done_generation
    { chatState := some
        { currentChatId := some "c",
          messages := [{ id := "a1", role := MsgRole.assistant, content := "",
                         order := 1, saved := false, saving := false,
                         error := none }],
          isLoading := false },
      errorsState := [], sessionsData := none, historyStore := [],
      sessionsResult := none,
      genBuffers := [("a1", { content := "hello", isDone := true, error := none })],
      saveStore := [], fastMs := 150, slowMs := 2000 }
    { currentChatId := some "c",
      messages := [{ id := "a1", role := MsgRole.assistant, content := "",
                     order := 1, saved := false, saving := false, error := none }],
      isLoading := false }
    { id := "a1", role := MsgRole.assistant, content := "", order := 1,
      saved := false, saving := false, error := none }
    { content := "hello", isDone := true, error := none }
    rfl (by decide) (by decide) rfl (by decide) rfl rfl rfl rfl rfl
    (by decide) (by decide)).1

/-- C4 counterexample: an assistant message whose buffer is done with no
error, not saved and not saving, but whose content is empty, gets no save
submitted by the tick, against the regardless-of-content reading. -/
theorem tick_no_save_for_empty_content_counterexample :
    ¬ ("a1" ∈ (tick
        { chatState := some
            { currentChatId := some "c",
              messages := [{ id := "a1", role := MsgRole.assistant, content := "",
                             order := 1, saved := false, saving := false,
                             error := none }],
              isLoading := false },
          errorsState := [], sessionsData := none, historyStore := [],
          sessionsResult := none,
          genBuffers := [("a1", { content := "", isDone := true, error := none })],
          saveStore := [], fastMs := 150, slowMs := 2000 }).submittedSaves) := by
  decide

theorem saveStep_some_ok (st : SaveStore) (m : Message) (s : SaveStatus)
    (h : alookup st m.id = some s) (hok : s.ok = true) :
    (saveStep st m).message =
      { m with saved := true, saving := false, error := none } := by
  unfold saveStep
  simp [pop_save_status, h, hok]

theorem saveStep_some_fail (st : SaveStore) (m : Message) (s : SaveStatus)
    (h : alookup st m.id = some s) (hok : s.ok = false) :
    (saveStep st m).message =
      { m with saved := false, saving := false, error := some (saveFailureText s) } ∧
    (saveStep st m).errEntry =
      some { messageId := m.id, stage := "save", error := saveFailureText s } := by
  unfold saveStep
  simp [pop_save_status, h, hok]

/-- C5, amended: for every message of the current state, after the popped
save status is merged: a success status marks it saved true, saving
false, error null; a failure status marks it saved false, saving false,
with the error set to the status error when that is a truthy string and
to the fallback text otherwise, and appends a non-blocking error entry;
an absent status leaves the message unchanged by this step. -/
theorem saveLoop_merges_status (ms : List Message) :
    ∀ (st : SaveStore) (m : Message), m ∈ ms →
      (ms.map Message.id).Nodup →
      ((alookup st m.id = none → m ∈ (saveLoop st ms).messages) ∧
       (∀ s, alookup st m.id = some s → s.ok = true →
         { m with saved := true, saving := false, error := none } ∈
           (saveLoop st ms).messages) ∧
       (∀ s, alookup st m.id = some s → s.ok = false →
         ({ m with saved := false, saving := false, error := some (saveFailureText s) }
            ∈ (saveLoop st ms).messages ∧
          { messageId := m.id, stage := "save", error := saveFailureText s } ∈
            (saveLoop st ms).newErrors))) := by
  induction ms with
  | nil =>
    intro st m hm _
    cases hm
  | cons x rest ih =>
    intro st m hm hnd
    have hndrest : (rest.map Message.id).Nodup :=
      (List.nodup_cons.mp (by simpa using hnd)).2
    rcases List.mem_cons.mp hm with rfl | hmem
    · refine ⟨?_, ?_, ?_⟩
      · intro habs
        simp [saveLoop, saveStep_absent st m habs]
      · intro s hs hok
        simp [saveLoop, saveStep_some_ok st m s hs hok]
      · intro s hs hok
        obtain ⟨hmsg, herr⟩ := saveStep_some_fail st m s hs hok
        exact ⟨by simp [saveLoop, hmsg], by simp [saveLoop, herr]⟩
    · have hxne : x.id ≠ m.id := by
        have hnotin : x.id ∉ rest.map Message.id :=
          (List.nodup_cons.mp (by simpa using hnd)).1
        intro he
        exact hnotin (he ▸ List.mem_map_of_mem Message.id hmem)
      have hstore : (saveStep st x).store = aerase st x.id := by
        rw [saveStep_store]
        rfl
      have hlook : alookup ((saveStep st x).store) m.id = alookup st m.id := by
        rw [hstore, alookup_aerase, if_neg hxne]
      obtain ⟨ha, hb, hc⟩ := ih (saveStep st x).store m hmem hndrest
      refine ⟨?_, ?_, ?_⟩
      · intro habs
        simp only [saveLoop]
        exact List.mem_cons_of_mem _ (ha (by rw [hlook]; exact habs))
      · intro s hs hok
        simp only [saveLoop]
        exact List.mem_cons_of_mem _ (hb s (by rw [hlook]; exact hs) hok)
      · intro s hs hok
        obtain ⟨h1, h2⟩ := hc s (by rw [hlook]; exact hs) hok
        refine ⟨?_, ?_⟩
        · simp only [saveLoop]
          exact List.mem_cons_of_mem _ h1
        · simp only [saveLoop]
          simp [h2]

/-- Witness for C5 at a concrete input. -/
theorem saveLoop_merges_status_witness :
    ({ id := "m1", role := MsgRole.assistant, content := "hi", order := 1,
       saved := true, saving := false, error := none } : Message) ∈
      (saveLoop [("m1", { ok := true, error := none })]
        [{ id := "m1", role := MsgRole.assistant, content := "hi", order := 1,
           saved := false, saving := true, error := none }]).messages :=
  ((saveLoop_merges_status
      [{ id := "m1", role := MsgRole.assistant, content := "hi", order := 1,
         saved := false, saving := true, error := none }]
      [("m1", { ok := true, error := none })]
      { id := "m1", role := MsgRole.assistant, content := "hi", order := 1,
        saved := false, saving := true, error := none }
      (by decide) (by decide)).2.1
    { ok := true, error := none } (by decide) rfl)

/-- C5 counterexample: with a popped failure status that carries no error
message, the merged message error is the fallback text, not the status
error field. -/
theorem save_status_error_fallback_counterexample :
    ¬ ((saveLoop [("m1", { ok := false, error := none })]
        [{ id := "m1", role := MsgRole.assistant, content := "hi", order := 1,
           saved := false, saving := true, error := none }]).messages.map
          Message.error
      = [({ ok := false, error := none } : SaveStatus).error]) := by
  decide

theorem genLoop_no_buffers (ms : List Message) :
    genLoop [] ms =
      { messages := ms, changed := false, hasActiveGeneration := false,
        submittedSaves := [] } := by
  induction ms with
  | nil => rfl
  | cons m rest ih =>
    have hstep : genStep [] m =
        { message := m, changed := false, active := false, save := none } := by
      unfold genStep
      split <;> rfl
    simp [genLoop, hstep, ih]

theorem saveLoop_empty_store (ms : List Message) :
    (saveLoop [] ms).messages = ms ∧ (saveLoop [] ms).changed = false ∧
    (saveLoop [] ms).newErrors = [] := by
  induction ms with
  | nil => exact ⟨rfl, rfl, rfl⟩
  | cons m rest ih =>
    have hstep : saveStep [] m =
        { message := m, store := [], errEntry := none, changed := false,
          pending := m.saving && !m.saved } := by
      unfold saveStep
      rfl
    obtain ⟨h1, h2, h3⟩ := ih
    refine ⟨?_, ?_, ?_⟩ <;> simp [saveLoop, hstep, h1, h2, h3]

/-- C6, amended: a popped completed history result for the current chat id
replaces the messages list wholesale and clears the loading flag; a popped
sessions-list result is merged with the existing sessions list, keeping
the loaded sessions in order and appending existing sessions missing from
it, rather than replacing the list wholesale; only when no chat state
exists at all is the loaded sessions payload emitted unchanged. -/
theorem tick_history_wholesale_sessions_merge :
    (∀ (inp : TickInput) (cs : ChatState) (cid : String) (h : List Message),
      inp.chatState = some cs → cs.currentChatId = some cid → cid ≠ "" →
      alookup inp.historyStore cid = some h →
      inp.genBuffers = [] → inp.saveStore = [] →
      (tick inp).chatOut =
        some { currentChatId := some cid, messages := h, isLoading := false }) ∧
    (∀ (inp : TickInput) (cs : ChatState) (ls : List SessionItem),
      inp.chatState = some cs → inp.sessionsResult = some ls →
      (tick inp).sessionsOut = some (mergeSessions (inp.sessionsData.getD []) ls)) ∧
    (∀ (inp : TickInput) (ls : List SessionItem),
      inp.chatState = none → inp.sessionsResult = some ls →
      (tick inp).sessionsOut = some ls) := by
  refine ⟨?_, ?_, ?_⟩
  · intro inp cs cid h hcs hcid hne hlook hgb hss
    have hlh : loadedHistoryFor cs inp.historyStore = some h := by
      simp [loadedHistoryFor, hcid, hne, hlook]
    have hchanged : ((loadedHistoryFor cs inp.historyStore).isSome
        || (genLoop inp.genBuffers
            ((loadedHistoryFor cs inp.historyStore).getD cs.messages)).changed
        || (saveLoop inp.saveStore
            (genLoop inp.genBuffers
              ((loadedHistoryFor cs inp.historyStore).getD cs.messages)).messages).changed)
        = true := by
      rw [hlh]
      simp
    rw [tick_chatOut_changed inp cs hcs hchanged]
    simp [hlh, hgb, hss, genLoop_no_buffers, (saveLoop_empty_store h).1, hcid]
  · intro inp cs ls hcs hls
    have hnc : ¬ (((loadedHistoryFor cs inp.historyStore).isSome
        || (genLoop inp.genBuffers
            ((loadedHistoryFor cs inp.historyStore).getD cs.messages)).changed
        || (saveLoop inp.saveStore
            (genLoop inp.genBuffers
              ((loadedHistoryFor cs inp.historyStore).getD cs.messages)).messages).changed)
          = false ∧
        inp.sessionsResult = none) := by
      intro hfc
      rw [hls] at hfc
      exact Option.noConfusion hfc.2
    simp only [tick, hcs]
    rw [if_neg hnc, hls]
    rfl
  · intro inp ls hcs hls
    simp [tick, hcs, hls]

/-- Witness for C6 at concrete inputs. -/
theorem tick_history_wholesale_sessions_merge_witness :
    (tick
        { chatState := some
            { currentChatId := some "c", messages := [], isLoading := true },
          errorsState := [], sessionsData := none,
          historyStore :=
            [("c", [{ id := "h1", role := MsgRole.user, content := "hi",
                      order := 0, saved := true, saving := false,
                      error := none }])],
          sessionsResult := none, genBuffers := [], saveStore := [],
          fastMs := 150, slowMs := 2000 }).chatOut =
      some { currentChatId := some "c",
             messages := [{ id := "h1", role := MsgRole.user, content := "hi",
                            order := 0, saved := true, saving := false,
                            error := none }],
             isLoading := false } ∧
    (tick
        { chatState := some
            { currentChatId := some "c", messages := [], isLoading := false },
          errorsState := [],
          sessionsData := some [{ id := "a", title := some "A" }],
          historyStore := [], sessionsResult := some [{ id := "b", title := some "B" }],
          genBuffers := [], saveStore := [], fastMs := 150, slowMs := 2000 }).sessionsOut =
      some (mergeSessions [{ id := "a", title := some "A" }]
        [{ id := "b", title := some "B" }]) ∧
    (tick
        { chatState := none, errorsState := [], sessionsData := none,
          historyStore := [], sessionsResult := some [{ id := "b", title := some "B" }],
          genBuffers := [], saveStore := [], fastMs := 150, slowMs := 2000 }).sessionsOut =
      some [{ id := "b", title := some "B" }] := by
  refine ⟨?_, ?_, ?_⟩
  · exact tick_history_wholesale_sessions_merge.1
      { chatState := some
          { currentChatId := some "c", messages := [], isLoading := true },
        errorsState := [], sessionsData := none,
        historyStore :=
          [("c", [{ id := "h1", role := MsgRole.user, content := "hi",
                    order := 0, saved := true, saving := false,
                    error := none }])],
        sessionsResult := none, genBuffers := [], saveStore := [],
        fastMs := 150, slowMs := 2000 }
      { currentChatId := some "c", messages := [], isLoading := true }
      "c"
      [{ id := "h1", role := MsgRole.user, content := "hi", order := 0,
         saved := true, saving := false, error := none }]
      rfl rfl (by decide) (by decide) rfl rfl
  · exact tick_history_wholesale_sessions_merge.2.1
      { chatState := some
          { currentChatId := some "c", messages := [], isLoading := false },
        errorsState := [],
        sessionsData := some [{ id := "a", title := some "A" }],
        historyStore := [], sessionsResult := some [{ id := "b", title := some "B" }],
        genBuffers := [], saveStore := [], fastMs := 150, slowMs := 2000 }
      { currentChatId := some "c", messages := [], isLoading := false }
      [{ id := "b", title := some "B" }]
      rfl rfl
  · exact tick_history_wholesale_sessions_merge.2.2
      { chatState := none, errorsState := [], sessionsData := none,
        historyStore := [], sessionsResult := some [{ id := "b", title := some "B" }],
        genBuffers := [], saveStore := [], fastMs := 150, slowMs := 2000 }
      [{ id := "b", title := some "B" }]
      rfl rfl

/-- C6 counterexample: with an existing session absent from the loaded
payload, the sessions output is not the loaded payload wholesale; the
existing session is appended after it. -/
theorem tick_sessions_not_wholesale_counterexample :
    ¬ ((tick
        { chatState := some
            { currentChatId := some "c", messages := [], isLoading := false },
          errorsState := [],
          sessionsData := some [{ id := "a", title := some "A" }],
          historyStore := [], sessionsResult := some [{ id := "b", title := some "B" }],
          genBuffers := [], saveStore := [], fastMs := 150, slowMs := 2000 }).sessionsOut =
      some [{ id := "b", title := some "B" }]) := by
  decide

/-- C9 counterexample: two sends to the same empty chat produce four local
optimistic messages with orders 0, 1, 2, 3 (each send appends a user and
an assistant message), not two messages with orders 0 and 1. -/
theorem two_sends_orders_counterexample :
    ¬ (((send_message "hi"
          (some { currentChatId := some "c", messages := [], isLoading := false })
          "u1" "a1").bind
        (fun r1 => (send_message "there" (some r1.state) "u2" "a2").map
          (fun r2 => r2.state.messages.map Message.order)))
      = some [0, 1]) := by
  decide

/-- C9, amended: two sends to the same empty chat produce local optimistic
orders 0, 1, 2 and 3; a subsequent history load returning a payload with
orders 0, 1, 2, 3 replaces the messages and leaves the final state
unchanged in ordering. -/
theorem two_sends_orders_amended :
    (((send_message "hi"
          (some { currentChatId := some "c", messages := [], isLoading := false })
          "u1" "a1").bind
        (fun r1 => (send_message "there" (some r1.state) "u2" "a2").map
          (fun r2 => r2.state.messages.map Message.order)))
      = some [0, 1, 2, 3]) ∧
    ((tick
        { chatState := some
            { currentChatId := some "c",
              messages :=
                [{ id := "u1", role := MsgRole.user, content := "hi", order := 0,
                   saved := false, saving := true, error := none },
                 { id := "a1", role := MsgRole.assistant, content := "", order := 1,
                   saved := false, saving := false, error := none },
                 { id := "u2", role := MsgRole.user, content := "there", order := 2,
                   saved := false, saving := true, error := none },
                 { id := "a2", role := MsgRole.assistant, content := "", order := 3,
                   saved := false, saving := false, error := none }],
              isLoading := false },
          errorsState := [], sessionsData := none,
          historyStore :=
            [("c", [{ id := "f1", role := MsgRole.user, content := "hi", order := 0,
                      saved := true, saving := false, error := none },
                    { id := "f2", role := MsgRole.assistant, content := "resp1",
                      order := 1, saved := true, saving := false, error := none },
                    { id := "f3", role := MsgRole.user, content := "there", order := 2,
                      saved := true, saving := false, error := none },
                    { id := "f4", role := MsgRole.assistant, content := "resp2",
                      order := 3, saved := true, saving := false, error := none }])],
          sessionsResult := none, genBuffers := [], saveStore := [],
          fastMs := 150, slowMs := 2000 }).chatOut.map
        (fun st => st.messages.map Message.order)
      = some [0, 1, 2, 3]) := by
  refine ⟨?_, ?_⟩ <;> decide

/-- C1 counterexample: with the serving invocation raising an exception
with text boom, the generation buffer produced for the work function that
send_message submits completes with no error recorded, and the error text
appears as the ordinary response content instead. -/
theorem generation_failure_counterexample :
    (run_generation (send_generate_work_fn
        { agentEndpoint := some "agent", chatContextLimit := none,
          agentChatK := none, doCallResult := .error "boom" } "u"
        [{ id := "u1", role := MsgRole.user, content := "hi", order := 0,
           saved := false, saving := true, error := none }])).error = none ∧
    (run_generation (send_generate_work_fn
        { agentEndpoint := some "agent", chatContextLimit := none,
          agentChatK := none, doCallResult := .error "boom" } "u"
        [{ id := "u1", role := MsgRole.user, content := "hi", order := 0,
           saved := false, saving := true, error := none }])).content =
      "Error calling model serving endpoint: boom" := by
  refine ⟨?_, ?_⟩ <;> decide

theorem generate_bot_response_doCall_error (env : AgentEnv) (user : String)
    (msgs : List AgentChatMessage) (e : String)
    (hep : optTruthy env.agentEndpoint = true)
    (hdo : env.doCallResult = .error e) :
    generate_bot_response env user msgs =
      "Error calling model serving endpoint: " ++ e := by
  unfold generate_bot_response
  rw [hep]
  simp [hdo]

theorem genStep_no_error_attach (bufs : List (String × GenBuffer)) (m : Message)
    (buf : GenBuffer) (hrole : m.role = MsgRole.assistant)
    (hbuf : alookup bufs m.id = some buf)
    (hbuferr : optTruthy buf.error = false) :
    (genStep bufs m).message.content = buf.content ∧
    (genStep bufs m).message.error = m.error := by
  obtain ⟨mid, mrole, mcontent, morder, msaved, msaving, merror⟩ := m
  dsimp only at hrole hbuf ⊢
  subst hrole
  unfold genStep
  simp only [hbuf]
  by_cases hc : buf.content = mcontent
  · subst hc
    by_cases hdone : buf.isDone
    · simp only [hdone, hbuferr]
      repeat' split
      all_goals simp_all
    · simp [hdone]
  · by_cases hdone : buf.isDone
    · simp only [hdone, hbuferr]
      repeat' split
      all_goals simp_all
    · simp [hdone, hc]

/-- C1, amended: when the serving-endpoint invocation raises inside the
generation work function, generate_bot_response catches the exception and
returns the error text as the response string, so the Generation Buffer
completes done with error none and the error text as content; the tick
integration step then attaches no message-level error and sets the
assistant message content to that text. -/
theorem generation_failure_amended (env : AgentEnv) (user : String)
    (ms : List Message) (e : String) (m : Message)
    (hep : optTruthy env.agentEndpoint = true)
    (hdo : env.doCallResult = .error e)
    (hrole : m.role = MsgRole.assistant) :
    run_generation (send_generate_work_fn env user ms) =
      { content := "Error calling model serving endpoint: " ++ e,
        isDone := true, error := none } ∧
    (genStep [(m.id, run_generation (send_generate_work_fn env user ms))]
        m).message.content = "Error calling model serving endpoint: " ++ e ∧
    (genStep [(m.id, run_generation (send_generate_work_fn env user ms))]
        m).message.error = m.error := by
  have hbuf : run_generation (send_generate_work_fn env user ms) =
      { content := "Error calling model serving endpoint: " ++ e,
        isDone := true, error := none } := by
    unfold send_generate_work_fn run_generation
    dsimp only
    rw [generate_bot_response_doCall_error env user _ e hep hdo]
  have hlook : alookup
      [(m.id, run_generation (send_generate_work_fn env user ms))] m.id =
      some (run_generation (send_generate_work_fn env user ms)) := by
    simp [alookup]
  have hbe : optTruthy (run_generation (send_generate_work_fn env user ms)).error
      = false := by
    rw [hbuf]
    rfl
  obtain ⟨hc, herr⟩ := genStep_no_error_attach _ m _ hrole hlook hbe
  exact ⟨hbuf, by rw [hc, hbuf], herr⟩

/-- Witness for C1 amended at a concrete input. -/
theorem generation_failure_amended_witness :
    run_generation (send_generate_work_fn
        { agentEndpoint := some "agent", chatContextLimit := none,
          agentChatK := none, doCallResult := .error "boom" } "u" []) =
      { content := "Error calling model serving endpoint: boom",
        isDone := true, error := none } :=
  (generation_failure_amended
    { agentEndpoint := some "agent", chatContextLimit := none,
      agentChatK := none, doCallResult := .error "boom" } "u" [] "boom"
    { id := "a1", role := MsgRole.assistant, content := "", order := 1,
      saved := false, saving := false, error := none }
    (by decide) rfl rfl).1

/-- C10: generate_bot_response is total with explicit error strings: with
AGENT_ENDPOINT unset it returns the not-configured error string; when the
endpoint invocation raises it returns the error-calling prefix followed by
the stringified exception; and the generation work function built by
send_message always yields an ok result, so the task queue sees no
failure path. -/
theorem generate_bot_response_total (env : AgentEnv) (user : String)
    (msgs : List AgentChatMessage) :
    (env.agentEndpoint = none →
      generate_bot_response env user msgs =
        "Error: AGENT_ENDPOINT environment variable not configured.") ∧
    (∀ e, optTruthy env.agentEndpoint = true → env.doCallResult = .error e →
      generate_bot_response env user msgs =
        "Error calling model serving endpoint: " ++ e) ∧
    (∀ dms : List Message, ∃ s, send_generate_work_fn env user dms =
      Except.ok s) := by
  refine ⟨?_, ?_, ?_⟩
  · intro h
    simp [generate_bot_response, h, optTruthy]
  · intro e hep hdo
    exact generate_bot_response_doCall_error env user msgs e hep hdo
  · intro dms
    exact ⟨_, rfl⟩

/-- Witness for C10 at concrete inputs. -/
theorem generate_bot_response_total_witness :
    generate_bot_response
        { agentEndpoint := none, chatContextLimit := none, agentChatK := none,
          doCallResult := .ok (.jstr "x") } "u" [] =
      "Error: AGENT_ENDPOINT environment variable not configured." ∧
    generate_bot_response
        { agentEndpoint := some "ep", chatContextLimit := none,
          agentChatK := none, doCallResult := .error "boom" } "u" [] =
      "Error calling model serving endpoint: boom" :=
  ⟨(generate_bot_response_total
      { agentEndpoint := none, chatContextLimit := none, agentChatK := none,
        doCallResult := .ok (.jstr "x") } "u" []).1 rfl,
   (generate_bot_response_total
      { agentEndpoint := some "ep", chatContextLimit := none,
        agentChatK := none, doCallResult := .error "boom" } "u" []).2.1 "boom"
      (by decide) rfl⟩

/-- C8 counterexample: when the llama title call raises, the computed
title is the fixed text New Chat, not the truncation of the first user
message, which differs from it at this input. -/
theorem title_ai_failure_counterexample :
    generate_chat_title
        { ctxMessages := .ok
            [{ msgType := MsgRole.user,
               content := "How do Fibonacci numbers work in practice" },
             { msgType := MsgRole.assistant, content := "They grow fast" }],
          llamaResp := .error "timeout", titleCommit := .ok (),
          firstUserMsg := .ok (some "How do Fibonacci numbers work in practice"),
          fallbackCommit := .ok () } = "New Chat" ∧
    ("How do Fibonacci numbers work in practice".take 30 ++ "...") ≠ "New Chat" := by
  refine ⟨?_, ?_⟩ <;> decide

/-- C8, amended: a failure of the llama call itself is swallowed inside
generate_title_with_llama, which returns the fixed text New Chat; the
deterministic truncated-first-message fallback applies when the
surrounding title pipeline raises around the call; and the result is
surfaced only as a session title by the rename callback, never as an
error. -/
theorem title_failure_recovery (env : TitleEnv) (e : String) (c : String) :
    (env.llamaResp = Except.error e →
      generate_title_with_llama env.llamaResp = "New Chat") ∧
    (env.ctxMessages = Except.error e → env.firstUserMsg = Except.ok (some c) →
      env.fallbackCommit = Except.ok () →
      generate_chat_title env =
        (if c.length > 30 then c.take 30 ++ "..." else c)) ∧
    (generate_chat_title env = "New Chat" →
      ai_rename_chat
        (some { currentChatId := some "c", messages := [], isLoading := false })
        (some [{ id := "c", title := none }]) env =
        some [{ id := "c", title := some "New Chat" }]) := by
  refine ⟨?_, ?_, ?_⟩
  · intro h
    rw [h]
    rfl
  · intro h1 h2 h3
    unfold generate_chat_title
    rw [h1]
    unfold titleFallback
    rw [h2, h3]
  · intro h
    unfold ai_rename_chat
    simp [h]

/-- Witness for C8 at a concrete input. -/
theorem title_failure_recovery_witness :
    generate_title_with_llama (Except.error "timeout") = "New Chat" :=
  (title_failure_recovery
    { ctxMessages := .ok [], llamaResp := .error "timeout",
      titleCommit := .ok (), firstUserMsg := .ok none,
      fallbackCommit := .ok () } "timeout" "x").1 rfl

/-- Witness for C2 at a concrete input. -/
theorem send_message_optimistic_orders_witness :
    send_message "hi" (some { currentChatId := some "c", messages := [] }) "u1" "a1" =
      some { state :=
               { currentChatId := some "c",
                 messages :=
                   [{ id := "u1", role := .user, content := "hi", order := 0,
                      saved := false, saving := true, error := none },
                    { id := "a1", role := .assistant, content := "", order := 1,
                      saved := false, saving := false, error := none }],
                 isLoading := false },
             savedUserId := "u1", genAssistantId := "a1", clearedInput := "" } := by
  have h := send_message_optimistic_orders
    { currentChatId := some "c", messages := [] } "hi" "u1" "a1"
    (by decide) (by decide)
  simpa [pyMaxDefault] using h

end ChatApp
